import Mathlib

/-!
Shallow embedding of the quaderno-sdk Python client (file `__init__.py`):
the `QuadernoError` classifier and the `Client` request dispatcher, together
with the resource convenience methods studied by this development.

Conventions of the embedding:
* HTTP status codes are natural numbers.
* `json.loads(response.content)` is modelled by storing the parse result on
  the response: `some j` for a raw body that decodes to the JSON value `j`,
  `none` for a raw body on which `json.loads` raises `ValueError`.
* Python operations that can raise at run time return `Except PyExc`.
* The transport call performed by one dispatcher invocation is recorded in
  the returned list of `HttpRequest` values, so that `exactly one request`
  is the statement that the list is a singleton.
-/

/-- Python exceptions that the embedded code can raise. -/
inductive PyExc where
  | valueError
  | typeError
  | attributeError
  | keyError
deriving DecidableEq

/-- JSON values as produced by `json.loads`; integer numbers suffice for the
bodies this development manipulates. -/
inductive Json where
  | null
  | bool (b : Bool)
  | num (n : Int)
  | str (s : String)
  | arr (elems : List Json)
  | obj (fields : List (String × Json))

/-- First-match lookup in a decoded JSON object; models Python dict lookup
(object keys are unique after `json.loads`). -/
def jsonLookup : List (String × Json) → String → Option Json
  | [], _ => none
  | (k, v) :: rest, key => if k = key then some v else jsonLookup rest key

/-- Whether the first sequence is an initial segment of the second. -/
def seqStartsWith : List Char → List Char → Bool
  | [], _ => true
  | _ :: _, [] => false
  | a :: as, b :: bs => (a == b) && seqStartsWith as bs

/-- Whether the first sequence occurs contiguously inside the second. -/
def seqFindSub (needle : List Char) : List Char → Bool
  | [] => seqStartsWith needle []
  | c :: rest => seqStartsWith needle (c :: rest) || seqFindSub needle rest

/-- Python substring test `needle in hay` on strings. -/
def strMem (needle hay : String) : Bool :=
  seqFindSub needle.data hay.data

/-- Python membership `key in x` on a decoded JSON value: key lookup on a
dict, element comparison on a list, substring search on a string, and a
`TypeError` on the remaining decoded types. -/
def pyIn (key : String) : Json → Except PyExc Bool
  | Json.obj fields => Except.ok (jsonLookup fields key).isSome
  | Json.arr elems =>
    Except.ok (elems.any fun e =>
      match e with
      | Json.str s => s == key
      | _ => false)
  | Json.str s => Except.ok (strMem key s)
  | _ => Except.error PyExc.typeError

/-- Python subscript `x[key]` with a string key on a decoded JSON value:
only dicts accept a string subscript. -/
def pySubscript (x : Json) (key : String) : Except PyExc Json :=
  match x with
  | Json.obj fields =>
    match jsonLookup fields key with
    | some v => Except.ok v
    | none => Except.error PyExc.keyError
  | _ => Except.error PyExc.typeError

/-- Python `x.get(key, default)`: only dicts carry a `get` method; every
other decoded type raises `AttributeError`. -/
def pyDictGet (x : Json) (key : String) (dflt : Json) : Except PyExc Json :=
  match x with
  | Json.obj fields => Except.ok ((jsonLookup fields key).getD dflt)
  | _ => Except.error PyExc.attributeError

/-- An HTTP response as seen by the SDK. `content` holds the result of
`json.loads(response.content)` as described in the module docstring. -/
structure Response where
  status_code : Nat
  content : Option Json
  headers : List (String × String)

/-- `headers.get(key)` on a response header mapping (first-match lookup). -/
def headersGet : List (String × String) → String → Option String
  | [], _ => none
  | (k, v) :: rest, key => if k = key then some v else headersGet rest key

/-- The fields that a successful run of `QuadernoError.__init__` assigns on
`self`. `message` keeps the decoded JSON value the constructor assigns. -/
structure QuadernoError where
  response : Response
  code : Nat
  errors : Option Json
  message : Json

/-- Constructor `QuadernoError.__init__(self, response=None)`. The
assignment `self.code = response.status_code` runs before the
`if response is not None` guard, so a missing response raises
`AttributeError` immediately. Otherwise the body is classified: a
`ValueError` from `json.loads` gives message `Unknown Error`; a decoded
body with an `errors` member gives message `Validation Error` and stores
the subscripted `errors` value; otherwise the message is the result of
`error.get` with key `error` and default `HTTP Error`. Membership,
subscript and `get` follow Python semantics on the decoded value and can
themselves raise. -/
def QuadernoError.init : Option Response → Except PyExc QuadernoError
  | none => Except.error PyExc.attributeError
  | some r =>
    match r.content with
    | none =>
      Except.ok { response := r, code := r.status_code, errors := none,
                  message := Json.str "Unknown Error" }
    | some body =>
      match pyIn "errors" body with
      | Except.error e => Except.error e
      | Except.ok true =>
        match pySubscript body "errors" with
        | Except.error e => Except.error e
        | Except.ok v =>
          Except.ok { response := r, code := r.status_code, errors := some v,
                      message := Json.str "Validation Error" }
      | Except.ok false =>
        match pyDictGet body "error" (Json.str "HTTP Error") with
        | Except.error e => Except.error e
        | Except.ok m =>
          Except.ok { response := r, code := r.status_code, errors := none,
                      message := m }

/-- Result of `get_reatelimit`: the dict with keys `remaining` and `reset`. -/
structure RateLimit where
  remaining : Option String
  reset : Option String

/-- Method `QuadernoError.get_reatelimit` (name as in the source): reads the
two rate-limit headers from the stored response at call time. -/
def QuadernoError.get_reatelimit (e : QuadernoError) : RateLimit :=
  { remaining := headersGet e.response.headers "x-ratelimit-remaining",
    reset := headersGet e.response.headers "x-ratelimit-reset" }

/-- Module attribute `__version__`. -/
def moduleVersion : String := "0.0.5"

/-- The client configuration fixed at construction. -/
structure Client where
  token : String
  host : String
  version : Option String
  ctype : String

/-- Class attribute `Client.user_agent`. -/
def Client.user_agent : String := "QuadernoSdk/api-rest-sdk:" ++ moduleVersion

/-- Python truthiness of the optional `version` string. -/
def truthy : Option String → Bool
  | none => false
  | some s => !s.isEmpty

/-- The `Accept` value the source sends. In the source the f-string prefix
sits on the key of the dict literal, not on the value, so the value is a
plain string literal and the text between its braces is sent verbatim,
never interpolated. -/
def acceptValue : String := "application/json; api_version=\x7bself.version\x7d"

/-- One step of `dict.update`: overwrite the first matching key keeping its
position, else append the new pair at the end. -/
def dictSet : List (String × String) → String → String → List (String × String)
  | [], k, v => [(k, v)]
  | (k1, v1) :: rest, k, v =>
    if k1 = k then (k, v) :: rest else (k1, v1) :: dictSet rest k v

/-- `d.update(u)`: fold the updates over `d` from left to right. -/
def dictUpdate (d u : List (String × String)) : List (String × String) :=
  u.foldl (fun acc kv => dictSet acc kv.1 kv.2) d

/-- Property `Client.headers`: a `User-Agent` entry, plus the `Accept` entry
when the configured version is truthy. -/
def Client.headers (c : Client) : List (String × String) :=
  let hs := [("User-Agent", Client.user_agent)]
  if truthy c.version then dictUpdate hs [("Accept", acceptValue)] else hs

/-- The keyword arguments the SDK forwards to `requests.request`. -/
structure Kwargs where
  params : Option (List (String × String))
  json : Option Json

/-- One outgoing call to `requests.request`. -/
structure HttpRequest where
  method : String
  url : String
  headers : List (String × String)
  auth : String × String
  params : Option (List (String × String))
  json : Option Json

/-- What a dispatcher call does once the transport returns `resp`: hand it
back, raise `QuadernoError`, or propagate a Python exception raised while
building the `QuadernoError`. -/
inductive ReqOutcome where
  | ok (r : Response)
  | err (e : QuadernoError)
  | pyerr (e : PyExc)

/-- Method `Client.request`: merge the caller headers over the client
headers, issue exactly one transport call (recorded in the returned list),
and classify the response by status code. -/
def Client.request (c : Client) (url method : String)
    (hdrs : Option (List (String × String))) (kw : Kwargs) (resp : Response) :
    List HttpRequest × ReqOutcome :=
  let http_headers := dictUpdate c.headers (hdrs.getD [])
  ([{ method := method, url := url, headers := http_headers,
      auth := (c.token, ""), params := kw.params, json := kw.json }],
   if 200 ≤ resp.status_code ∧ resp.status_code < 300 then
     ReqOutcome.ok resp
   else
     match QuadernoError.init (some resp) with
     | Except.ok e => ReqOutcome.err e
     | Except.error pe => ReqOutcome.pyerr pe)

/-- Method `Client._endpoint`: build the URL from host, action and content
type, then dispatch. -/
def Client._endpoint (c : Client) (action method : String)
    (hdrs : Option (List (String × String))) (kw : Kwargs) (resp : Response) :
    List HttpRequest × ReqOutcome :=
  c.request (c.host ++ "/api/" ++ action ++ "." ++ c.ctype) method hdrs kw resp

/-- Method `Client.get`: fold the optional `params` dict into the extra
keyword arguments and send the merged dict as the query parameters of a
GET. -/
def Client.get (c : Client) (action : String)
    (params : Option (List (String × String)))
    (kwargs : List (String × String)) (resp : Response) :
    List HttpRequest × ReqOutcome :=
  c._endpoint action "GET" none
    { params := some (dictUpdate kwargs (params.getD [])), json := none } resp

/-- Method `Client.post`. -/
def Client.post (c : Client) (action : String) (json : Option Json)
    (resp : Response) : List HttpRequest × ReqOutcome :=
  c._endpoint action "POST" none { params := none, json := json } resp

/-- Method `Client.put`. -/
def Client.put (c : Client) (action : String) (json : Option Json)
    (resp : Response) : List HttpRequest × ReqOutcome :=
  c._endpoint action "PUT" none { params := none, json := json } resp

/-- Method `Client.delete`. -/
def Client.delete (c : Client) (action : String)
    (hdrs : Option (List (String × String))) (kw : Kwargs) (resp : Response) :
    List HttpRequest × ReqOutcome :=
  c._endpoint action "DELETE" hdrs kw resp

/-- Method `Client.get_contact(id)`. -/
def Client.get_contact (c : Client) (id : String) (resp : Response) :
    List HttpRequest × ReqOutcome :=
  c.get ("contacts/" ++ id) none [] resp

/-- Method `Client.add_payment_to_invoice(id, json)`. -/
def Client.add_payment_to_invoice (c : Client) (id : String) (json : Json)
    (resp : Response) : List HttpRequest × ReqOutcome :=
  c.post ("invoices/" ++ id ++ "/payments") (some json) resp

/-- Method `Client.contacts(params=None, **kwargs)`: the body passes
`params=None` to `get`, discarding the caller argument. -/
def Client.contacts (c : Client) (params : Option (List (String × String)))
    (kwargs : List (String × String)) (resp : Response) :
    List HttpRequest × ReqOutcome :=
  c.get "contacts" none kwargs resp

/-- Method `Client.invoices(params=None, **kwargs)`: passes `params=None`. -/
def Client.invoices (c : Client) (params : Option (List (String × String)))
    (kwargs : List (String × String)) (resp : Response) :
    List HttpRequest × ReqOutcome :=
  c.get "invoices" none kwargs resp

/-- Method `Client.expenses(params=None, **kwargs)`: passes `params=None`. -/
def Client.expenses (c : Client) (params : Option (List (String × String)))
    (kwargs : List (String × String)) (resp : Response) :
    List HttpRequest × ReqOutcome :=
  c.get "expenses" none kwargs resp

/-- Method `Client.estimates(params=None, **kwargs)`: passes `params=None`. -/
def Client.estimates (c : Client) (params : Option (List (String × String)))
    (kwargs : List (String × String)) (resp : Response) :
    List HttpRequest × ReqOutcome :=
  c.get "estimates" none kwargs resp

/-- Method `Client.credits(params=None, **kwargs)`: passes `params=None`. -/
def Client.credits (c : Client) (params : Option (List (String × String)))
    (kwargs : List (String × String)) (resp : Response) :
    List HttpRequest × ReqOutcome :=
  c.get "credits" none kwargs resp

/-- Method `Client.recurring(params=None, **kwargs)`: passes `params=None`. -/
def Client.recurring (c : Client) (params : Option (List (String × String)))
    (kwargs : List (String × String)) (resp : Response) :
    List HttpRequest × ReqOutcome :=
  c.get "recurring" none kwargs resp

/-- Method `Client.items(params=None, **kwargs)`: passes `params=None`. -/
def Client.items (c : Client) (params : Option (List (String × String)))
    (kwargs : List (String × String)) (resp : Response) :
    List HttpRequest × ReqOutcome :=
  c.get "items" none kwargs resp

/-- Method `Client.webhooks(params=None, **kwargs)`: passes `params=None`. -/
def Client.webhooks (c : Client) (params : Option (List (String × String)))
    (kwargs : List (String × String)) (resp : Response) :
    List HttpRequest × ReqOutcome :=
  c.get "webhooks" none kwargs resp

/-- String concatenation is associative (by reduction to list append). -/
theorem strAppendAssoc (a b c : String) : a ++ b ++ c = a ++ (b ++ c) := by
  cases a with
  | mk da =>
    cases b with
    | mk db =>
      cases c with
      | mk dc =>
        show String.mk (da ++ db ++ dc) = String.mk (da ++ (db ++ dc))
        rw [List.append_assoc]

/-- Claim C10: the constructor reads `response.status_code` before checking
that a response is present, so constructing the error with an absent
response fails with `AttributeError`. -/
theorem quaderno_C10_absent_response :
    QuadernoError.init none = Except.error PyExc.attributeError := rfl

/-- Claim C5: a failure body that does not parse as JSON yields the message
`Unknown Error` and no structured error list. -/
theorem quaderno_C5_unknown (r : Response) (hc : r.content = none) :
    QuadernoError.init (some r) =
      Except.ok { response := r, code := r.status_code, errors := none,
                  message := Json.str "Unknown Error" } := by
  simp [QuadernoError.init, hc]

/-- Witness for C5 at a concrete unparsable body. -/
theorem quaderno_C5_witness :
    (({ status_code := 500, content := none, headers := [] } : Response).content = none)
    ∧ QuadernoError.init
        (some { status_code := 500, content := none, headers := [] }) =
      Except.ok { response := { status_code := 500, content := none, headers := [] },
                  code := 500, errors := none,
                  message := Json.str "Unknown Error" } :=
  ⟨rfl, quaderno_C5_unknown _ rfl⟩

/-- Claim C3: a failure body that parses as a JSON object containing an
`errors` key yields the message `Validation Error` and stores the value of
the `errors` key as the structured errors. -/
theorem quaderno_C3_validation (r : Response) (fields : List (String × Json))
    (v : Json) (hc : r.content = some (Json.obj fields))
    (hv : jsonLookup fields "errors" = some v) :
    QuadernoError.init (some r) =
      Except.ok { response := r, code := r.status_code, errors := some v,
                  message := Json.str "Validation Error" } := by
  simp [QuadernoError.init, hc, pyIn, hv, pySubscript]

/-- Witness for C3 at the body from the specification example. -/
theorem quaderno_C3_witness :
    (({ status_code := 422,
        content := some (Json.obj
          [("errors", Json.obj [("name", Json.arr [Json.str "can\x27t be blank"])])]),
        headers := [] } : Response).content =
      some (Json.obj
        [("errors", Json.obj [("name", Json.arr [Json.str "can\x27t be blank"])])]))
    ∧ jsonLookup
        [("errors", Json.obj [("name", Json.arr [Json.str "can\x27t be blank"])])]
        "errors" =
      some (Json.obj [("name", Json.arr [Json.str "can\x27t be blank"])])
    ∧ QuadernoError.init
        (some { status_code := 422,
                content := some (Json.obj
                  [("errors", Json.obj [("name", Json.arr [Json.str "can\x27t be blank"])])]),
                headers := [] }) =
      Except.ok
        { response :=
            { status_code := 422,
              content := some (Json.obj
                [("errors", Json.obj [("name", Json.arr [Json.str "can\x27t be blank"])])]),
              headers := [] },
          code := 422,
          errors := some (Json.obj [("name", Json.arr [Json.str "can\x27t be blank"])]),
          message := Json.str "Validation Error" } :=
  ⟨rfl, rfl, quaderno_C3_validation _ _ _ rfl rfl⟩

/-- Claim C4, amended: a failure body that parses as a JSON object without
an `errors` key yields as message the value of the `error` key when that
key is present, and `HTTP Error` otherwise. The original claim quantified
over every body that parses as JSON; the counterexample shows that for a
non-object JSON body the constructor itself raises instead. -/
theorem quaderno_C4_object_no_errors (r : Response)
    (fields : List (String × Json)) (hc : r.content = some (Json.obj fields))
    (hv : jsonLookup fields "errors" = none) :
    QuadernoError.init (some r) =
      Except.ok { response := r, code := r.status_code, errors := none,
                  message := (jsonLookup fields "error").getD (Json.str "HTTP Error") } := by
  simp [QuadernoError.init, hc, pyIn, hv, pyDictGet]

/-- Witness for C4 at the body from the specification example. -/
theorem quaderno_C4_witness :
    (({ status_code := 401,
        content := some (Json.obj [("error", Json.str "Not authorized")]),
        headers := [] } : Response).content =
      some (Json.obj [("error", Json.str "Not authorized")]))
    ∧ jsonLookup [("error", Json.str "Not authorized")] "errors" = none
    ∧ QuadernoError.init
        (some { status_code := 401,
                content := some (Json.obj [("error", Json.str "Not authorized")]),
                headers := [] }) =
      Except.ok
        { response :=
            { status_code := 401,
              content := some (Json.obj [("error", Json.str "Not authorized")]),
              headers := [] },
          code := 401, errors := none,
          message := Json.str "Not authorized" } :=
  ⟨rfl, rfl,
    quaderno_C4_object_no_errors
      { status_code := 401,
        content := some (Json.obj [("error", Json.str "Not authorized")]),
        headers := [] }
      [("error", Json.str "Not authorized")] rfl rfl⟩

/-- Counterexample to C4 as stated: the body decoding to the JSON array
`[]` parses as JSON and contains no `errors` key, yet the constructor
raises `AttributeError` (the decoded list has no `get` method), so no error
object carrying the message `HTTP Error` is ever constructed. -/
theorem quaderno_C4_counterexample :
    QuadernoError.init
        (some { status_code := 422, content := some (Json.arr []), headers := [] }) =
      Except.error PyExc.attributeError
    ∧ QuadernoError.init
        (some { status_code := 422, content := some (Json.arr []), headers := [] }) ≠
      Except.ok { response := { status_code := 422, content := some (Json.arr []),
                                headers := [] },
                  code := 422, errors := none,
                  message := Json.str "HTTP Error" } := by
  refine ⟨rfl, ?_⟩
  intro h
  exact Except.noConfusion ((rfl : QuadernoError.init
    (some { status_code := 422, content := some (Json.arr []), headers := [] }) =
      Except.error PyExc.attributeError) ▸ h)

/-- Claim C6: evaluation of the `headers` property of a client configured
with the non-empty version string `1.2`. The `Accept` value sent is the
verbatim text of the source literal, with the placeholder uninterpolated,
and differs from the value the specification prescribes; with no version
configured, no `Accept` entry is present. -/
theorem quaderno_C6_accept_literal :
    Client.headers { token := "t", host := "h", version := some "1.2", ctype := "json" } =
      [("User-Agent", Client.user_agent),
       ("Accept", "application/json; api_version=\x7bself.version\x7d")]
    ∧ ("application/json; api_version=\x7bself.version\x7d" ≠
        "application/json; api_version=1.2")
    ∧ Client.headers { token := "t", host := "h", version := none, ctype := "json" } =
      [("User-Agent", Client.user_agent)] := by
  refine ⟨rfl, ?_, rfl⟩
  decide

/-- Claim C8: the rate-limit accessor computes its result from the headers
the stored response carries at the moment of the call, whatever they are,
so nothing is captured at construction; present headers are returned under
the keys `remaining` and `reset` and absent headers give absent values
without raising. -/
theorem quaderno_C8_ratelimit_on_demand (e : QuadernoError)
    (hs : List (String × String)) :
    QuadernoError.get_reatelimit
        { e with response := { e.response with headers := hs } } =
      { remaining := headersGet hs "x-ratelimit-remaining",
        reset := headersGet hs "x-ratelimit-reset" }
    ∧ QuadernoError.get_reatelimit
        { e with response := { e.response with headers :=
            [("x-ratelimit-remaining", "10"), ("x-ratelimit-reset", "1620000000")] } } =
      { remaining := some "10", reset := some "1620000000" }
    ∧ QuadernoError.get_reatelimit
        { e with response := { e.response with headers := [] } } =
      { remaining := none, reset := none } :=
  ⟨rfl, rfl, rfl⟩

/-- Claim C9: each of the eight list methods discards its `params` argument
(the source passes `params=None` to `get`), so the call with any `params`
dict is the same call as with no `params`, and the query parameters of the
one issued request are exactly the extra keyword arguments. -/
theorem quaderno_C9_params_discarded (c : Client)
    (p kwargs : List (String × String)) (resp : Response) :
    (c.contacts (some p) kwargs resp = c.contacts none kwargs resp
      ∧ c.invoices (some p) kwargs resp = c.invoices none kwargs resp
      ∧ c.expenses (some p) kwargs resp = c.expenses none kwargs resp
      ∧ c.estimates (some p) kwargs resp = c.estimates none kwargs resp
      ∧ c.credits (some p) kwargs resp = c.credits none kwargs resp
      ∧ c.recurring (some p) kwargs resp = c.recurring none kwargs resp
      ∧ c.items (some p) kwargs resp = c.items none kwargs resp
      ∧ c.webhooks (some p) kwargs resp = c.webhooks none kwargs resp)
    ∧ ((c.contacts (some p) kwargs resp).1.map fun r => r.params) = [some kwargs]
    ∧ ((c.invoices (some p) kwargs resp).1.map fun r => r.params) = [some kwargs]
    ∧ ((c.expenses (some p) kwargs resp).1.map fun r => r.params) = [some kwargs]
    ∧ ((c.estimates (some p) kwargs resp).1.map fun r => r.params) = [some kwargs]
    ∧ ((c.credits (some p) kwargs resp).1.map fun r => r.params) = [some kwargs]
    ∧ ((c.recurring (some p) kwargs resp).1.map fun r => r.params) = [some kwargs]
    ∧ ((c.items (some p) kwargs resp).1.map fun r => r.params) = [some kwargs]
    ∧ ((c.webhooks (some p) kwargs resp).1.map fun r => r.params) = [some kwargs] :=
  ⟨⟨rfl, rfl, rfl, rfl, rfl, rfl, rfl, rfl⟩,
    rfl, rfl, rfl, rfl, rfl, rfl, rfl, rfl⟩

/-- Lookup after a single `dict.update` step. -/
theorem headersGet_dictSet (d : List (String × String)) (k v key : String) :
    headersGet (dictSet d k v) key = if key = k then some v else headersGet d key := by
  induction d with
  | nil =>
    by_cases h : key = k
    · simp [dictSet, headersGet, h]
    · simp [dictSet, headersGet, h, Ne.symm h]
  | cons hd tl ih =>
    obtain ⟨k1, v1⟩ := hd
    by_cases h1 : k1 = k
    · subst h1
      by_cases h2 : key = k1
      · simp [dictSet, headersGet, h2]
      · simp [dictSet, headersGet, h2, Ne.symm h2]
    · by_cases h2 : k1 = key
      · subst h2
        simp [dictSet, headersGet, h1]
      · simp [dictSet, headersGet, h1, h2, ih]

/-- Keys untouched by the update keep their value across `dict.update`. -/
theorem headersGet_dictUpdate_of_missing (u : List (String × String)) :
    ∀ d key, headersGet u key = none →
      headersGet (dictUpdate d u) key = headersGet d key := by
  induction u with
  | nil => intro d key _; rfl
  | cons hd tl ih =>
    intro d key h
    obtain ⟨k1, v1⟩ := hd
    have hk : ¬ k1 = key := by
      intro hk
      simp [headersGet, hk] at h
    have htl : headersGet tl key = none := by
      simpa [headersGet, hk] using h
    show headersGet (dictUpdate (dictSet d k1 v1) tl) key = headersGet d key
    rw [ih (dictSet d k1 v1) key htl, headersGet_dictSet]
    rw [if_neg (Ne.symm hk)]

/-- `dict.update` never removes a key that is already present. -/
theorem headersGet_dictUpdate_isSome (u : List (String × String)) :
    ∀ d key, (headersGet d key).isSome = true →
      (headersGet (dictUpdate d u) key).isSome = true := by
  induction u with
  | nil => intro d key h; exact h
  | cons hd tl ih =>
    intro d key h
    obtain ⟨k1, v1⟩ := hd
    show (headersGet (dictUpdate (dictSet d k1 v1) tl) key).isSome = true
    apply ih
    rw [headersGet_dictSet]
    by_cases hk : key = k1
    · simp [hk]
    · simpa [hk] using h

/-- The base client headers always hold the SDK `User-Agent` value. -/
theorem headersGet_client_headers (c : Client) :
    headersGet c.headers "User-Agent" = some Client.user_agent := by
  show headersGet
    (if truthy c.version then
      dictUpdate [("User-Agent", Client.user_agent)] [("Accept", acceptValue)]
    else [("User-Agent", Client.user_agent)]) "User-Agent" = some Client.user_agent
  cases truthy c.version <;> simp [dictUpdate, dictSet, headersGet]

/-- Claim C7, amended: every request issued by the dispatcher carries a
`User-Agent` header, and its value is the SDK identification string
whenever the caller-supplied extra headers do not themselves contain a
`User-Agent` key; a caller-supplied `User-Agent` entry overrides the SDK
one (see the counterexample). -/
theorem quaderno_C7_user_agent (c : Client) (url method : String)
    (hdrs : Option (List (String × String))) (kw : Kwargs) (resp : Response)
    (r : HttpRequest) (hr : r ∈ (c.request url method hdrs kw resp).1) :
    (headersGet r.headers "User-Agent").isSome = true
    ∧ (headersGet (hdrs.getD []) "User-Agent" = none →
        headersGet r.headers "User-Agent" = some Client.user_agent) := by
  have hreq : r =
      { method := method, url := url,
        headers := dictUpdate c.headers (hdrs.getD []),
        auth := (c.token, ""), params := kw.params, json := kw.json } := by
    simpa [Client.request] using hr
  subst hreq
  constructor
  · apply headersGet_dictUpdate_isSome
    rw [headersGet_client_headers]
    rfl
  · intro hnone
    rw [headersGet_dictUpdate_of_missing _ _ _ hnone, headersGet_client_headers]

/-- Witness for C7: the dispatcher call with no extra headers, whose one
issued request carries the SDK `User-Agent` value. -/
theorem quaderno_C7_witness :
    (({ method := "GET", url := "u",
        headers := [("User-Agent", Client.user_agent)],
        auth := ("t", ""), params := none, json := none } : HttpRequest) ∈
      (Client.request { token := "t", host := "h", version := none, ctype := "json" }
        "u" "GET" none { params := none, json := none }
        { status_code := 204, content := none, headers := [] }).1)
    ∧ headersGet ((none : Option (List (String × String))).getD []) "User-Agent" = none
    ∧ (headersGet [("User-Agent", Client.user_agent)] "User-Agent").isSome = true
    ∧ (headersGet ((none : Option (List (String × String))).getD []) "User-Agent" = none →
        headersGet [("User-Agent", Client.user_agent)] "User-Agent" =
          some Client.user_agent) := by
  have hmem :
      ({ method := "GET", url := "u",
         headers := [("User-Agent", Client.user_agent)],
         auth := ("t", ""), params := none, json := none } : HttpRequest) ∈
        (Client.request { token := "t", host := "h", version := none, ctype := "json" }
          "u" "GET" none { params := none, json := none }
          { status_code := 204, content := none, headers := [] }).1 :=
    List.mem_singleton.mpr rfl
  have h := quaderno_C7_user_agent
    { token := "t", host := "h", version := none, ctype := "json" }
    "u" "GET" none { params := none, json := none }
    { status_code := 204, content := none, headers := [] } _ hmem
  exact ⟨hmem, rfl, h.1, h.2⟩

/-- Counterexample to C7 as stated: extra headers carrying a `User-Agent`
entry overwrite the SDK one, so the issued request identifies as `x`, not
as the SDK. -/
theorem quaderno_C7_counterexample :
    ((Client.request { token := "t", host := "h", version := none, ctype := "json" }
        "u" "GET" (some [("User-Agent", "x")]) { params := none, json := none }
        { status_code := 204, content := none, headers := [] }).1.map
      fun r => headersGet r.headers "User-Agent") = [some "x"]
    ∧ (some "x" : Option String) ≠ some Client.user_agent := by
  exact ⟨rfl, by decide⟩

/-- Claim C1, amended: a status code in the interval from 200 inclusive to
300 exclusive makes the dispatcher hand back the response unchanged with
no error; a status code outside that interval makes it raise the typed
error, whose `code` equals the response status code, provided the body
fails to parse as JSON or parses as a JSON object. The original claim
covered every response; the counterexample shows that for a non-object
JSON body the error constructor itself raises a Python exception instead
of the typed error. -/
theorem quaderno_C1_classification (c : Client) (url method : String)
    (hdrs : Option (List (String × String))) (kw : Kwargs) (resp : Response) :
    (200 ≤ resp.status_code ∧ resp.status_code < 300 →
      (c.request url method hdrs kw resp).2 = ReqOutcome.ok resp)
    ∧ (¬ (200 ≤ resp.status_code ∧ resp.status_code < 300) →
      (resp.content = none ∨ ∃ fields, resp.content = some (Json.obj fields)) →
      ∃ e, (c.request url method hdrs kw resp).2 = ReqOutcome.err e ∧
        e.code = resp.status_code) := by
  constructor
  · intro h
    simp [Client.request, h]
  · intro h hbody
    rcases hbody with hn | ⟨fields, hf⟩
    · exact ⟨{ response := resp, code := resp.status_code, errors := none,
               message := Json.str "Unknown Error" },
        by simp [Client.request, h, QuadernoError.init, hn], rfl⟩
    · cases hv : jsonLookup fields "errors" with
      | some v =>
        exact ⟨{ response := resp, code := resp.status_code, errors := some v,
                 message := Json.str "Validation Error" },
          by simp [Client.request, h, QuadernoError.init, hf, pyIn, pySubscript, hv], rfl⟩
      | none =>
        exact ⟨{ response := resp, code := resp.status_code, errors := none,
                 message := (jsonLookup fields "error").getD (Json.str "HTTP Error") },
          by simp [Client.request, h, QuadernoError.init, hf, pyIn, pyDictGet, hv], rfl⟩

/-- Witness for C1: a 204 response comes back unchanged, and a 500 response
with an unparsable body raises the typed error with code 500. -/
theorem quaderno_C1_witness :
    (200 ≤ 204 ∧ 204 < 300)
    ∧ (Client.request { token := "t", host := "h", version := none, ctype := "json" }
        "u" "GET" none { params := none, json := none }
        { status_code := 204, content := none, headers := [] }).2 =
      ReqOutcome.ok { status_code := 204, content := none, headers := [] }
    ∧ ¬ (200 ≤ 500 ∧ 500 < 300)
    ∧ (({ status_code := 500, content := none, headers := [] } : Response).content = none
        ∨ ∃ fields, ({ status_code := 500, content := none, headers := [] } : Response).content =
            some (Json.obj fields))
    ∧ ∃ e, (Client.request { token := "t", host := "h", version := none, ctype := "json" }
        "u" "GET" none { params := none, json := none }
        { status_code := 500, content := none, headers := [] }).2 = ReqOutcome.err e ∧
      e.code = 500 := by
  refine ⟨by decide, ?_, by decide, Or.inl rfl, ?_⟩
  · exact (quaderno_C1_classification
      { token := "t", host := "h", version := none, ctype := "json" }
      "u" "GET" none { params := none, json := none }
      { status_code := 204, content := none, headers := [] }).1 (by decide)
  · exact (quaderno_C1_classification
      { token := "t", host := "h", version := none, ctype := "json" }
      "u" "GET" none { params := none, json := none }
      { status_code := 500, content := none, headers := [] }).2 (by decide) (Or.inl rfl)

/-- Counterexample to C1 as stated: a 500 response whose body decodes to
the JSON array `[]` makes the dispatcher propagate the `AttributeError`
raised inside the error constructor, so no typed error carrying the status
code is raised. -/
theorem quaderno_C1_counterexample :
    (Client.request { token := "t", host := "h", version := none, ctype := "json" }
        "u" "GET" none { params := none, json := none }
        { status_code := 500, content := some (Json.arr []), headers := [] }).2 =
      ReqOutcome.pyerr PyExc.attributeError := rfl

/-- Claim C2: on a client whose content type is the default `json`,
`get_contact` with id `42` issues exactly one GET to
`host/api/contacts/42.json` with an empty query-parameter dict and no
body, and `add_payment_to_invoice` with id `7` issues exactly one POST to
`host/api/invoices/7/payments.json` carrying the given JSON body. -/
theorem quaderno_C2_single_request (c : Client) (hc : c.ctype = "json")
    (resp : Response) (body : Json) :
    ((c.get_contact "42" resp).1.map fun r => (r.method, r.url, r.params, r.json)) =
      [("GET", c.host ++ "/api/contacts/42.json",
        some ([] : List (String × String)), (none : Option Json))]
    ∧ ((c.add_payment_to_invoice "7" body resp).1.map
        fun r => (r.method, r.url, r.params, r.json)) =
      [("POST", c.host ++ "/api/invoices/7/payments.json",
        (none : Option (List (String × String))), some body)] := by
  constructor
  · simp [Client.get_contact, Client.get, Client._endpoint, Client.request,
      dictUpdate, hc]
    rw [strAppendAssoc, strAppendAssoc, strAppendAssoc]
    rfl
  · simp [Client.add_payment_to_invoice, Client.post, Client._endpoint,
      Client.request, hc]
    rw [strAppendAssoc, strAppendAssoc, strAppendAssoc]
    rfl

/-- Witness for C2 on a concrete client with host `h` and the body from
the specification example. -/
theorem quaderno_C2_witness :
    Client.ctype { token := "t", host := "h", version := none, ctype := "json" } = "json"
    ∧ ((Client.get_contact { token := "t", host := "h", version := none, ctype := "json" }
          "42" { status_code := 200, content := none, headers := [] }).1.map
        fun r => (r.method, r.url, r.params, r.json)) =
      [("GET", "h/api/contacts/42.json",
        some ([] : List (String × String)), (none : Option Json))]
    ∧ ((Client.add_payment_to_invoice
          { token := "t", host := "h", version := none, ctype := "json" } "7"
          (Json.obj [("amount", Json.num 10)])
          { status_code := 200, content := none, headers := [] }).1.map
        fun r => (r.method, r.url, r.params, r.json)) =
      [("POST", "h/api/invoices/7/payments.json",
        (none : Option (List (String × String))),
        some (Json.obj [("amount", Json.num 10)]))] := by
  have h := quaderno_C2_single_request
    { token := "t", host := "h", version := none, ctype := "json" } rfl
    { status_code := 200, content := none, headers := [] }
    (Json.obj [("amount", Json.num 10)])
  exact ⟨rfl, h.1, h.2⟩
